/-
Verification of db_toolkit against its natural-language specification.

Shallow embedding of the two components the claims are about:
  * db_toolkit/misc/config_reader.py  (load_cfg_file)
  * db_toolkit/mongo/MongoDb.py       (make_db_link, __test_params, insert_many,
                                       get_database / get_collection)

Python strings are modelled as Lean `String` / `List Char`.  Python's `\w`
and digit classes are modelled by their ASCII restriction (the repository's
configuration keys and the claims only exercise ASCII input).
-/
import Mathlib

namespace DbToolkit

/-! ### Python string primitives -/

/-- ASCII restriction of Python's regex class `\w` (letters, digits, underscore). -/
def isWordChar (c : Char) : Bool :=
  c.isAlpha || c.isDigit || c = '_'

/-- Python `str.strip()` on a list of characters: remove leading and trailing
whitespace. -/
def stripChars (cs : List Char) : List Char :=
  ((cs.dropWhile Char.isWhitespace).reverse.dropWhile Char.isWhitespace).reverse

/-- Python `str.strip()`. -/
def pyStrip (s : String) : String :=
  String.mk (stripChars s.data)

/-- Python `str.lower()` (ASCII restriction). -/
def pyLower (s : String) : String :=
  String.mk (s.data.map Char.toLower)

/-- Python `str.isdigit()` (ASCII restriction): non-empty and all digits. -/
def pyIsDigit (s : String) : Bool :=
  !s.data.isEmpty && s.data.all Char.isDigit

/-- Whether the first list is a prefix of the second. -/
def prefixChars : List Char → List Char → Bool
  | [], _ => true
  | _ :: _, [] => false
  | a :: as, b :: bs => a = b && prefixChars as bs

/-- Whether the first list occurs contiguously inside the second. -/
def infixChars : List Char → List Char → Bool
  | sub, [] => sub.isEmpty
  | sub, c :: rest => prefixChars sub (c :: rest) || infixChars sub rest

/-- Python `sub in s` substring test. -/
def pyContains (s sub : String) : Bool :=
  infixChars sub.data s.data

/-! ### The regex `(\w+)\s*<sep>(.*)` of config_reader.load_cfg_file

`re.match` anchors at the start of the line, `\w+` and `\s*` are greedy and
backtrack.  `tryJ` backtracks the `\s*` run (longest first) looking for the
separator; `tryI` backtracks the `\w+` run (longest first).  On success it
returns the two capture groups. -/

/-- Backtrack the `\s*` length from `j` down to `0`: accept when the character
right after the word prefix of length `i` and `j` whitespace characters is the
separator.  Group 1 is the word prefix, group 2 the rest of the line. -/
def tryJ (sep : Char) (cs : List Char) (i : Nat) : Nat → Option (List Char × List Char)
  | 0 =>
    if (cs.drop i).head? = some sep then
      some (cs.take i, cs.drop (i + 1))
    else none
  | j + 1 =>
    if (cs.drop (i + (j + 1))).head? = some sep then
      some (cs.take i, cs.drop (i + (j + 1) + 1))
    else tryJ sep cs i j

/-- Backtrack the `\w+` length from the maximal word run down to `1`. -/
def tryI (sep : Char) (cs : List Char) : Nat → Option (List Char × List Char)
  | 0 => none
  | i + 1 =>
    match tryJ sep cs (i + 1) ((cs.drop (i + 1)).takeWhile Char.isWhitespace).length with
    | some r => some r
    | none => tryI sep cs i

/-- `re.match(rf'(\w+)\s*{sep}(.*)', line)`: the capture groups, or `none`
when the line does not match. -/
def reMatchKV (sep : Char) (cs : List Char) : Option (List Char × List Char) :=
  tryI sep cs (cs.takeWhile isWordChar).length

/-! ### config_reader.load_cfg_file -/

/-- Python `dict` assignment `d[k] = v`: replace in place when the key is
present, else append (insertion order preserved). -/
def dictSet (d : List (String × String)) (k v : String) : List (String × String) :=
  if d.any (fun p => p.1 = k) then
    d.map (fun p => if p.1 = k then (k, v) else p)
  else d ++ [(k, v)]

/-- The `ValueError`s raised by `load_cfg_file`, each carrying the 1-based
line number and the stripped line text that the Python message interpolates. -/
inductive CfgErr : Type
  /-- `'Missing configuration file argument'` -/
  | missingFileArg : CfgErr
  /-- `'Invalid configuration file entry on line {count}: {line}'` -/
  | malformedEntry (lineNo : Nat) (line : String) : CfgErr
  /-- `'Missing key entry on line {count}: {line}'` -/
  | missingKey (lineNo : Nat) (line : String) : CfgErr
  /-- `'Missing value entry on line {count}: {line}'` -/
  | missingValue (lineNo : Nat) (line : String) : CfgErr
  deriving DecidableEq, Repr

/-- The loop of `load_cfg_file`: walk the lines keeping the running line
count, the config dict and the list of line numbers for which
`logging.info('Ignoring unknown entry …')` fired. -/
def loadLines (keys : List String) (sep : Char) :
    List String → Nat → List (String × String) → List Nat →
    Except CfgErr (List (String × String) × List Nat)
  | [], _, d, ns => .ok (d, ns)
  | rawLine :: rest, count, d, ns =>
    let line := pyStrip rawLine
    let c := count + 1
    if line.data.isEmpty then
      loadLines keys sep rest c d ns
    else if line.data.head? = some '#' then
      loadLines keys sep rest c d ns
    else
      match reMatchKV sep line.data with
      | none => .error (.malformedEntry c line)
      | some (g1, g2) =>
        let key := pyStrip (pyLower (String.mk g1))
        if key.data.isEmpty then
          .error (.missingKey c line)
        else
          let value := pyStrip (String.mk g2)
          if value.data.isEmpty then
            .error (.missingValue c line)
          else if key ∈ keys then
            loadLines keys sep rest c (dictSet d key value) ns
          else
            loadLines keys sep rest c d (ns ++ [c])

/-- A file descriptor: the file's lines plus the read position (in lines). -/
structure CfgFile : Type where
  content : List String
  pos : Nat
  deriving DecidableEq, Repr

/-- `load_cfg_file(cfg_file, keys, separator)`: `None` argument is rejected;
otherwise the descriptor is rewound to the start (`cfg_file.seek(0, SEEK_SET)`)
and every line is processed, leaving the position at the end of the file.
Returns the advanced descriptor together with the result. -/
def load_cfg_file (cfg_file : Option CfgFile) (keys : List String) (sep : Char) :
    CfgFile × Except CfgErr (List (String × String) × List Nat) :=
  match cfg_file with
  | none => (⟨[], 0⟩, .error .missingFileArg)
  | some fd =>
    (⟨fd.content, fd.content.length⟩, loadLines keys sep fd.content 0 [] [])

/-! ### Per-line classification (for stating the claims) -/

/-- How `load_cfg_file` treats one (raw) line. -/
inductive LineClass : Type
  | skip : LineClass
  | stored (key value : String) : LineClass
  | ignored (key : String) : LineClass
  | badFormat : LineClass
  | badKey : LineClass
  | badValue : LineClass
  deriving DecidableEq, Repr

/-- Classification of a raw line, mirroring the checks of the loop body. -/
def classifyLine (keys : List String) (sep : Char) (rawLine : String) : LineClass :=
  let line := pyStrip rawLine
  if line.data.isEmpty then .skip
  else if line.data.head? = some '#' then .skip
  else
    match reMatchKV sep line.data with
    | none => .badFormat
    | some (g1, g2) =>
      let key := pyStrip (pyLower (String.mk g1))
      if key.data.isEmpty then .badKey
      else
        let value := pyStrip (String.mk g2)
        if value.data.isEmpty then .badValue
        else if key ∈ keys then .stored key value
        else .ignored key

/-- A line on which processing does not raise. -/
def lineOk (keys : List String) (sep : Char) (rawLine : String) : Prop :=
  classifyLine keys sep rawLine = .skip ∨
    (∃ k v, classifyLine keys sep rawLine = .stored k v) ∨
    (∃ k, classifyLine keys sep rawLine = .ignored k)

/-- Boolean version of `lineOk`. -/
def lineOkB (keys : List String) (sep : Char) (rawLine : String) : Bool :=
  match classifyLine keys sep rawLine with
  | .badFormat => false
  | .badKey => false
  | .badValue => false
  | _ => true

theorem lineOkB_iff (keys : List String) (sep : Char) (rawLine : String) :
    lineOkB keys sep rawLine = true ↔ lineOk keys sep rawLine := by
  unfold lineOkB lineOk
  rcases h : classifyLine keys sep rawLine <;> simp [h]

instance (keys : List String) (sep : Char) (rawLine : String) :
    Decidable (lineOk keys sep rawLine) :=
  decidable_of_iff _ (lineOkB_iff keys sep rawLine)

/-- A line that is blank, a comment, or a recognized stored entry. -/
def storedOrSkip (keys : List String) (sep : Char) (rawLine : String) : Bool :=
  match classifyLine keys sep rawLine with
  | .skip => true
  | .stored _ _ => true
  | _ => false

/-! ### urllib.parse.quote_plus

`quote_plus` (called with its default `safe=''`) UTF-8–encodes the string and
then, byte by byte, keeps the always-safe bytes (ASCII letters, digits and
`_.-~`), turns a space into `+`, and percent-encodes everything else with
upper-case hexadecimal. -/

/-- UTF-8 encoding of one code point, as byte values. -/
def utf8CharBytes (c : Char) : List Nat :=
  let n := c.toNat
  if n < 128 then [n]
  else if n < 2048 then [192 + n / 64, 128 + n % 64]
  else if n < 65536 then [224 + n / 4096, 128 + (n / 64) % 64, 128 + n % 64]
  else [240 + n / 262144, 128 + (n / 4096) % 64, 128 + (n / 64) % 64, 128 + n % 64]

/-- Upper-case hexadecimal digit for a value below 16. -/
def hexDigit (n : Nat) : Char :=
  if n < 10 then Char.ofNat (48 + n) else Char.ofNat (55 + n)

/-- The bytes `quote` never encodes: ASCII letters, digits, `_`, `.`, `-`, `~`. -/
def alwaysSafeByte (b : Nat) : Bool :=
  (65 ≤ b && b ≤ 90) || (97 ≤ b && b ≤ 122) || (48 ≤ b && b ≤ 57) ||
    b = 95 || b = 46 || b = 45 || b = 126

/-- Encoding of one byte under `quote_plus`. -/
def quotePlusByte (b : Nat) : List Char :=
  if b = 32 then ['+']
  else if alwaysSafeByte b then [Char.ofNat b]
  else ['%', hexDigit (b / 16), hexDigit (b % 16)]

/-- `urllib.parse.quote_plus(s)` with the default empty safe set. -/
def quotePlus (s : String) : String :=
  String.mk (((s.data.map utf8CharBytes).flatten.map quotePlusByte).flatten)

/-! ### MongoDb.make_db_link -/

/-- The connection-relevant fields of a `MongoDb` object (every field is a
string or `None`, exactly as after loading a configuration file). -/
structure MongoCfg : Type where
  server : Option String
  username : Option String
  password : Option String
  port : Option String
  dbname : Option String
  auth_source : Option String
  ssl : Option String
  replica_set : Option String
  max_idle_time_ms : Option String
  app_name : Option String
  retry_writes : Option String
  deriving DecidableEq, Repr

/-- The `ValueError`s raised while building a link. -/
inductive LinkErr : Type
  /-- `'Server not configured'` (raised in `make_db_link` itself) -/
  | serverNotConfigured : LinkErr
  /-- `'Missing {key} configuration'` (required-key loop of `__test_params`) -/
  | missingRequired (key : String) : LinkErr
  /-- `'Password configured but no username configured'` -/
  | invalidConfiguration : LinkErr
  /-- `'Non-integer value specified for {key}'` -/
  | nonInteger (key : String) : LinkErr
  /-- `'Invalid value specified for {key}; must be "true" or "false"'` -/
  | invalidBool (key : String) : LinkErr
  deriving DecidableEq, Repr

/-- An optional field set to a value that `str.isdigit` rejects. -/
def badDigitOpt : Option String → Bool
  | none => false
  | some v => !pyIsDigit v

/-- An optional field set to a value whose lower-casing is neither `"true"`
nor `"false"`. -/
def badBoolOpt : Option String → Bool
  | none => false
  | some v => !(pyLower v = "true" || pyLower v = "false")

/-- `MongoDb.__test_params(args)`: the validation checks, in source order. -/
def testParams (a : MongoCfg) : Except LinkErr Unit :=
  if a.server = none then .error (.missingRequired "server")
  else if a.username = none ∧ a.password ≠ none then .error .invalidConfiguration
  else if badDigitOpt a.port then .error (.nonInteger "port")
  else if badDigitOpt a.max_idle_time_ms then .error (.nonInteger "max_idle_time_ms")
  else if badBoolOpt a.ssl then .error (.invalidBool "ssl")
  else if badBoolOpt a.retry_writes then .error (.invalidBool "retry_writes")
  else .ok ()

/-- The query-string part of the `LINK_ORDER` loop: each present query
parameter appends `?`-or-`&` prefix (the very first one appends `/?` because
`query_params == 0`), its wire name, `=` and its value onto the accumulator. -/
def queryFold : List (String × Option String) → String → Nat → String
  | [], acc, _ => acc
  | (_, none) :: rest, acc, q => queryFold rest acc q
  | (name, some v) :: rest, acc, q =>
    queryFold rest (acc ++ (if q = 0 then "/?" else "&") ++ name ++ "=" ++ v) (q + 1)

/-- `MongoDb.make_db_link` (with no keyword overrides, so `args` is the
object's own configuration).  Checks the server, runs `__test_params`,
lower-cases `ssl`, then walks `LINK_ORDER`: `username` appends its
quote-plus form, `password` appends `:`, its quote-plus form and `@`,
`server` and `port` append verbatim, the `dbname` branch is commented out in
the source and appends nothing, and the query keys are folded with their
`QUERY_KEY_NAMES`. -/
def make_db_link (cfg : MongoCfg) : Except LinkErr String :=
  match cfg.server with
  | none => .error .serverNotConfigured
  | some srv =>
    match testParams cfg with
    | .error e => .error e
    | .ok _ =>
      let ssl' := cfg.ssl.map pyLower
      let l1 := match cfg.username with
        | none => "mongodb://"
        | some u => "mongodb://" ++ quotePlus u
      let l2 := match cfg.password with
        | none => l1
        | some p => l1 ++ ":" ++ quotePlus p ++ "@"
      let l3 := l2 ++ srv
      let l4 := match cfg.port with
        | none => l3
        | some p => l3 ++ ":" ++ p
      .ok (queryFold
        [("authSource", cfg.auth_source), ("ssl", ssl'),
         ("replicaSet", cfg.replica_set), ("maxIdleTimeMS", cfg.max_idle_time_ms),
         ("appName", cfg.app_name), ("retryWrites", cfg.retry_writes)] l4 0)

/-! ### Closed form of the produced link -/

/-- The authentication component: quote-plus–encoded username, then `:`,
quote-plus–encoded password and `@` when a password is present. -/
def authPart (cfg : MongoCfg) : String :=
  (match cfg.username with | none => "" | some u => quotePlus u) ++
    (match cfg.password with | none => "" | some p => ":" ++ quotePlus p ++ "@")

/-- The port component. -/
def portPart (cfg : MongoCfg) : String :=
  match cfg.port with | none => "" | some p => ":" ++ p

/-- The present parameters of a name/optional-value list, as `name=value`
strings, in order. -/
def pairsOf (items : List (String × Option String)) : List String :=
  items.filterMap (fun p => p.2.map (fun v => p.1 ++ "=" ++ v))

/-- The present query parameters, as `name=value` strings, in declared order
(`ssl` lower-cased as in the source). -/
def queryPairs (cfg : MongoCfg) : List String :=
  pairsOf [("authSource", cfg.auth_source), ("ssl", cfg.ssl.map pyLower),
    ("replicaSet", cfg.replica_set), ("maxIdleTimeMS", cfg.max_idle_time_ms),
    ("appName", cfg.app_name), ("retryWrites", cfg.retry_writes)]

/-- Join strings with `&` between them. -/
def joinAmp : List String → String
  | [] => ""
  | [s] => s
  | s :: rest => s ++ "&" ++ joinAmp (rest)

/-- Empty for no pairs; otherwise the joined pairs prefixed with `/?` when no
query parameter was emitted yet (`q = 0`), `&` otherwise. -/
def querySuffix : List String → Nat → String
  | [], _ => ""
  | s :: rest, q => (if q = 0 then "/?" else "&") ++ joinAmp (s :: rest)

/-- The query component: empty, or `/?` followed by the `&`-joined pairs. -/
def queryPart (cfg : MongoCfg) : String :=
  querySuffix (queryPairs cfg) 0

/-- The link, as the fixed-order concatenation of its components. -/
def linkOf (cfg : MongoCfg) : String :=
  "mongodb://" ++ authPart cfg ++ (match cfg.server with | none => "" | some s => s) ++
    portPart cfg ++ queryPart cfg

/-! ### MongoDb.insert_many

The collection object is modelled as an oracle for the underlying pymongo
calls: `resp k` is the outcome of the `k`-th `collection.insert_many` call of
the run (0-based), and `countBefore` / `countAfter` are the two
`collection.count_documents({})` readings (taken at the start of of the call
and after the chunk loop, respectively).  The run records a trace of the
observable actions: each `insert_many` submission and each `sleep`. -/

/-- The first entry of `bwe.details['writeErrors']`: the failing index and
the error code. -/
structure WriteErr : Type where
  index : Nat
  code : Int
  deriving DecidableEq, Repr

/-- Outcome of one underlying `collection.insert_many` call: a pymongo
`InsertManyResult`, a `BulkWriteError`, or any other exception. -/
inductive InsertOutcome (α : Type) : Type
  | ok (inserted_ids : List α) (acknowledged : Bool) : InsertOutcome α
  | bulkErr (d : WriteErr) : InsertOutcome α
  | otherFail : InsertOutcome α
  deriving DecidableEq, Repr

/-- An element of the Python `inserted_ids` list built in the retry path:
`[None] * err_index` contributes `pyNone` entries and each
`inserted_ids.append(result.inserted_ids)` appends one whole id list. -/
inductive PyVal (α : Type) : Type
  | objId (a : α) : PyVal α
  | pyNone : PyVal α
  | idList (l : List α) : PyVal α
  deriving DecidableEq, Repr

/-- `pymongo.results.InsertManyResult`. -/
structure InsertManyRes (α : Type) : Type where
  inserted_ids : List (PyVal α)
  acknowledged : Bool
  deriving DecidableEq, Repr

/-- The exceptions `insert_many` can propagate. -/
inductive MongoFail : Type
  /-- a re-raised `BulkWriteError` -/
  | bulkWrite (d : WriteErr) : MongoFail
  /-- `ValueError` from `range(err_index, len(entries), 0)` (zero step) -/
  | rangeStepZero : MongoFail
  /-- `ValueError('Batch inserted document count {num_docs} does not match …')` -/
  | countMismatch (got : Int) (want : Nat) : MongoFail
  /-- any exception other than `BulkWriteError`, propagated uncaught -/
  | otherError : MongoFail
  deriving DecidableEq, Repr

/-- An observable action of the run. -/
inductive MEvent (α : Type) : Type
  | insertCall (docs : List α) : MEvent α
  | sleepMs (ms : Nat) : MEvent α
  deriving DecidableEq, Repr

/-- Oracle for the backend's behaviour during one `insert_many` run. -/
structure CollOracle (α : Type) : Type where
  resp : Nat → InsertOutcome α
  countBefore : Nat
  countAfter : Nat

/-- Python `entries[idx:idx + b]`. -/
def pySlice (entries : List α) (idx b : Nat) : List α :=
  (entries.drop idx).take b

/-- The index list of Python `range(i, n, b)` for a positive step `b`. -/
def pyRange (i n b : Nat) : List Nat :=
  List.range' i ((n - i + b - 1) / b) b

/-- The chunk loop `for idx in range(err_index, len(entries), batch_size)`:
submits `entries[idx:idx + b]`, appends the returned id list, sleeps 250 ms,
and moves on; a `BulkWriteError` (or any other exception) from a chunk is
re-raised.  `k` is the index of the next oracle call.  Returns the trace of
the loop together with either the propagated failure or the collected
per-chunk id lists and the `acknowledged` flag of the last `result`. -/
def chunkLoop (c : CollOracle α) (entries : List α) (b : Nat) :
    List Nat → Nat → List (List α) → Bool →
    List (MEvent α) × Except MongoFail (List (List α) × Bool)
  | [], _, acc, ack => ([], .ok (acc, ack))
  | idx :: rest, k, acc, _ =>
    match c.resp k with
    | .ok ids a =>
      let r := chunkLoop c entries b rest (k + 1) (acc ++ [ids]) a
      (.insertCall (pySlice entries idx b) :: .sleepMs 250 :: r.1, r.2)
    | .bulkErr d => ([.insertCall (pySlice entries idx b)], .error (.bulkWrite d))
    | .otherFail => ([.insertCall (pySlice entries idx b)], .error .otherError)

/-- `MongoDb.insert_many(entries)` for a server named `server`, given a
collection (or `None`, when `get_collection()` found nothing).  Mirrors the
source: with no collection the initial `InsertManyResult((), False)` is
returned untouched; otherwise the whole batch is submitted once; on a
`BulkWriteError` the code sleeps 500 ms, and only when the error code is
16500 and the server contains `'mongo.cosmos.azure'` does it retry the tail
in chunks of `int(err_index * 0.25)` documents (exact, since 0.25 is a
negative power of two: `err_index / 4`), finally checking the
`count_documents` delta against `len(entries)`. -/
def insertMany (server : String) (coll : Option (CollOracle α)) (entries : List α) :
    List (MEvent α) × Except MongoFail (InsertManyRes α) :=
  match coll with
  | none => ([], .ok ⟨[], false⟩)
  | some c =>
    match c.resp 0 with
    | .ok ids ack => ([.insertCall entries], .ok ⟨ids.map .objId, ack⟩)
    | .otherFail => ([.insertCall entries], .error .otherError)
    | .bulkErr d =>
      let ev0 : List (MEvent α) := [.insertCall entries, .sleepMs 500]
      if d.code = 16500 ∧ pyContains server "mongo.cosmos.azure" then
        let batch_size := d.index / 4
        if batch_size = 0 then (ev0, .error .rangeStepZero)
        else
          let r := chunkLoop c entries batch_size
            (pyRange d.index entries.length batch_size) 1 [] false
          match r.2 with
          | .error e => (ev0 ++ r.1, .error e)
          | .ok (chunkIds, lastAck) =>
            let num_docs : Int := (c.countAfter : Int) - (c.countBefore : Int)
            if num_docs ≠ (entries.length : Int) then
              (ev0 ++ r.1, .error (.countMismatch num_docs entries.length))
            else
              (ev0 ++ r.1,
               .ok ⟨List.replicate d.index .pyNone ++ chunkIds.map .idList, lastAck⟩)
      else (ev0, .error (.bulkWrite d))

/-- `MongoDb.get_database` / `MongoDb.get_collection`: a collection is
available only when a connection was obtained and both `dbname` and
`collection` are configured. -/
def getCollection (conn : Option (CollOracle α)) (dbname collName : Option String) :
    Option (CollOracle α) :=
  match conn with
  | none => none
  | some c =>
    match dbname with
    | none => none
    | some _ =>
      match collName with
      | none => none
      | some _ => some c

/-- `insert_many` as called on a `MongoDb` object: the collection comes from
`get_collection()`. -/
def insertManyOp (server : String) (conn : Option (CollOracle α))
    (dbname collName : Option String) (entries : List α) :
    List (MEvent α) × Except MongoFail (InsertManyRes α) :=
  insertMany server (getCollection conn dbname collName) entries

/-- The documents submitted to the backend during a run, in order. -/
def insertCalls (trace : List (MEvent α)) : List (List α) :=
  trace.filterMap (fun e => match e with
    | .insertCall docs => some docs
    | .sleepMs _ => none)

/-! ## Lemmas about the configuration loader -/

/-- One step of the loading loop, expressed through the line classification. -/
theorem loadLines_cons (keys : List String) (sep : Char) (l : String)
    (rest : List String) (c : Nat) (d : List (String × String)) (ns : List Nat) :
    loadLines keys sep (l :: rest) c d ns =
      match classifyLine keys sep l with
      | .skip => loadLines keys sep rest (c + 1) d ns
      | .stored k v => loadLines keys sep rest (c + 1) (dictSet d k v) ns
      | .ignored _ => loadLines keys sep rest (c + 1) d (ns ++ [c + 1])
      | .badFormat => .error (.malformedEntry (c + 1) (pyStrip l))
      | .badKey => .error (.missingKey (c + 1) (pyStrip l))
      | .badValue => .error (.missingValue (c + 1) (pyStrip l)) := by
  simp only [loadLines, classifyLine]
  repeat' split
  all_goals (try rfl)
  all_goals simp_all

/-- The positions (1-based, offset by `c`) of the lines whose entries are
ignored with an informational notice. -/
def noticeLines (keys : List String) (sep : Char) : List String → Nat → List Nat
  | [], _ => []
  | l :: rest, c =>
    match classifyLine keys sep l with
    | .ignored _ => (c + 1) :: noticeLines keys sep rest (c + 1)
    | _ => noticeLines keys sep rest (c + 1)

/-- Processing a prefix of non-raising lines reaches the rest of the file
with the line counter advanced by the prefix's length. -/
theorem loadLines_prefix_ok (keys : List String) (sep : Char) :
    ∀ (pre : List String), (∀ l ∈ pre, lineOk keys sep l) →
      ∀ (rest : List String) (c : Nat) (d : List (String × String)) (ns : List Nat),
        ∃ d' ns', loadLines keys sep (pre ++ rest) c d ns =
          loadLines keys sep rest (c + pre.length) d' ns' := by
  intro pre
  induction pre with
  | nil => intro _ rest c d ns; exact ⟨d, ns, by simp⟩
  | cons l pre ih =>
    intro hok rest c d ns
    have hl : lineOk keys sep l := hok l (by simp)
    have hpre : ∀ x ∈ pre, lineOk keys sep x := fun x hx => hok x (by simp [hx])
    rw [List.cons_append, loadLines_cons]
    have hlen : c + (l :: pre).length = c + 1 + pre.length := by
      rw [List.length_cons]; omega
    rcases hl with h | ⟨k, v, h⟩ | ⟨k, h⟩ <;> simp only [h]
    · obtain ⟨d', ns', he⟩ := ih hpre rest (c + 1) d ns
      exact ⟨d', ns', by rw [he, hlen]⟩
    · obtain ⟨d', ns', he⟩ := ih hpre rest (c + 1) (dictSet d k v) ns
      exact ⟨d', ns', by rw [he, hlen]⟩
    · obtain ⟨d', ns', he⟩ := ih hpre rest (c + 1) d (ns ++ [c + 1])
      exact ⟨d', ns', by rw [he, hlen]⟩

/-- Every entry of a Python-dict assignment result is the new pair's key or
was already present. -/
theorem dictSet_mem (d : List (String × String)) (k v : String) :
    ∀ q ∈ dictSet d k v, q.1 = k ∨ q ∈ d := by
  intro q hq
  unfold dictSet at hq
  split at hq
  · obtain ⟨p, hp, he⟩ := List.mem_map.mp hq
    by_cases hk : p.1 = k
    · rw [if_pos hk] at he; left; rw [← he]
    · rw [if_neg hk] at he; right; rw [← he]; exact hp
  · rcases List.mem_append.mp hq with h | h
    · right; exact h
    · left; simp at h; rw [h]

/-- A stored key is recognized. -/
theorem classifyLine_stored_mem (keys : List String) (sep : Char) (l k v : String)
    (h : classifyLine keys sep l = .stored k v) : k ∈ keys := by
  simp only [classifyLine] at h
  repeat' split at h
  all_goals simp_all

/-- An ignored key is not recognized. -/
theorem classifyLine_ignored_not_mem (keys : List String) (sep : Char) (l k : String)
    (h : classifyLine keys sep l = .ignored k) : k ∉ keys := by
  simp only [classifyLine] at h
  repeat' split at h
  all_goals simp_all

/-- Running the loop over non-raising lines succeeds, keeps every stored key
recognized, and emits exactly one notice per ignored line. -/
theorem loadLines_ok_run (keys : List String) (sep : Char) :
    ∀ (lines : List String), (∀ l ∈ lines, lineOk keys sep l) →
      ∀ (c : Nat) (d : List (String × String)) (ns : List Nat),
        (∀ p ∈ d, p.1 ∈ keys) →
        ∃ d', loadLines keys sep lines c d ns = .ok (d', ns ++ noticeLines keys sep lines c) ∧
          ∀ p ∈ d', p.1 ∈ keys := by
  intro lines
  induction lines with
  | nil => intro _ c d ns hd; exact ⟨d, by simp [loadLines, noticeLines], hd⟩
  | cons l rest ih =>
    intro hok c d ns hd
    have hl : lineOk keys sep l := hok l (by simp)
    have hrest : ∀ x ∈ rest, lineOk keys sep x := fun x hx => hok x (by simp [hx])
    rw [loadLines_cons]
    rcases hl with h | ⟨k, v, h⟩ | ⟨k, h⟩ <;> rw [h] <;> simp only [noticeLines, h]
    · exact ih hrest (c + 1) d ns hd
    · refine ih hrest (c + 1) (dictSet d k v) ns ?_
      intro p hp
      rcases dictSet_mem d k v p hp with hpk | hpd
      · rw [hpk]; exact classifyLine_stored_mem keys sep l k v h
      · exact hd p hpd
    · obtain ⟨d', he, hd'⟩ := ih hrest (c + 1) d (ns ++ [c + 1]) hd
      exact ⟨d', by rw [he]; simp, hd'⟩

/-! ## Claims C7, C8, C9 (configuration loader) -/

/-- C7: for every non-blank, non-comment configuration line that does not
match `key separator value` (here with the default separator `=`), or whose
key is empty after lower-casing and trimming, or whose value is empty after
trimming, loading fails with an error carrying the 1-based physical line
number of that exact line — `malformedEntry`, `missingKey` and
`missingValue` respectively; blank lines and lines whose first non-space
character is `#` are skipped.  The offending line is the first one, i.e. the
lines before it all process without raising. -/
theorem cfg_bad_line_fails_with_line_number (keys : List String)
    (pre : List String) (line : String) (post : List String)
    (hpre : ∀ l ∈ pre, lineOk keys '=' l) :
    (classifyLine keys '=' line = .badFormat →
      (load_cfg_file (some ⟨pre ++ line :: post, 0⟩) keys '=').2 =
        .error (.malformedEntry (pre.length + 1) (pyStrip line))) ∧
    (classifyLine keys '=' line = .badKey →
      (load_cfg_file (some ⟨pre ++ line :: post, 0⟩) keys '=').2 =
        .error (.missingKey (pre.length + 1) (pyStrip line))) ∧
    (classifyLine keys '=' line = .badValue →
      (load_cfg_file (some ⟨pre ++ line :: post, 0⟩) keys '=').2 =
        .error (.missingValue (pre.length + 1) (pyStrip line))) ∧
    (classifyLine keys '=' line = .skip →
      ∀ c d ns, loadLines keys '=' (line :: post) c d ns =
        loadLines keys '=' post (c + 1) d ns) := by
  refine ⟨?_, ?_, ?_, ?_⟩
  · intro h
    obtain ⟨d', ns', he⟩ := loadLines_prefix_ok keys '=' pre hpre (line :: post) 0 [] []
    simp only [load_cfg_file]
    rw [he, loadLines_cons]
    simp [h]
  · intro h
    obtain ⟨d', ns', he⟩ := loadLines_prefix_ok keys '=' pre hpre (line :: post) 0 [] []
    simp only [load_cfg_file]
    rw [he, loadLines_cons]
    simp [h]
  · intro h
    obtain ⟨d', ns', he⟩ := loadLines_prefix_ok keys '=' pre hpre (line :: post) 0 [] []
    simp only [load_cfg_file]
    rw [he, loadLines_cons]
    simp [h]
  · intro h c d ns
    rw [loadLines_cons]
    simp [h]

/-- Witness for C7 at a concrete file: the comment line and a stored line
precede a separator-less line; loading fails naming physical line 3. -/
theorem cfg_bad_line_fails_with_line_number_witness :
    (∀ l ∈ ["# config", "server = x"], lineOk ["server"] '=' l) ∧
    classifyLine ["server"] '=' "no separator" = .badFormat ∧
    (load_cfg_file (some ⟨["# config", "server = x", "no separator", "tail = y"], 0⟩)
        ["server"] '=').2 =
      .error (.malformedEntry 3 "no separator") := by
  refine ⟨by decide, by decide, ?_⟩
  exact (cfg_bad_line_fails_with_line_number ["server"] ["# config", "server = x"]
    "no separator" ["tail = y"] (by decide)).1 (by decide)

/-- C8: a well-formed file whose every line is blank, a comment, a
recognized entry or an unrecognized entry loads without error; only
recognized keys populate the mapping (an unrecognized key is never stored),
and the notices are exactly one per ignored line, carrying its line number. -/
theorem cfg_unrecognized_keys_ignored (keys : List String) (lines : List String)
    (hok : ∀ l ∈ lines, lineOk keys '=' l) :
    ∃ d ns, (load_cfg_file (some ⟨lines, 0⟩) keys '=').2 = .ok (d, ns) ∧
      (∀ p ∈ d, p.1 ∈ keys) ∧
      (∀ k, k ∉ keys → ∀ v, (k, v) ∉ d) ∧
      ns = noticeLines keys '=' lines 0 := by
  obtain ⟨d', he, hd'⟩ := loadLines_ok_run keys '=' lines hok 0 [] [] (by simp)
  refine ⟨d', noticeLines keys '=' lines 0, ?_, hd', ?_, rfl⟩
  · simp only [load_cfg_file]
    rw [he]; simp
  · intro k hk v hv
    exact hk (hd' (k, v) hv)

/-- Witness for C8: a file mixing recognized and unrecognized entries. -/
theorem cfg_unrecognized_keys_ignored_witness :
    (∀ l ∈ ["server=x", "bogus=1", "port = 2", "extra = y"],
      lineOk ["server", "port"] '=' l) ∧
    (∃ d ns, (load_cfg_file
        (some ⟨["server=x", "bogus=1", "port = 2", "extra = y"], 0⟩)
        ["server", "port"] '=').2 = .ok (d, ns) ∧
      (∀ p ∈ d, p.1 ∈ ["server", "port"]) ∧
      (∀ k, k ∉ ["server", "port"] → ∀ v, (k, v) ∉ d) ∧
      ns = noticeLines ["server", "port"] '='
        ["server=x", "bogus=1", "port = 2", "extra = y"] 0) :=
  ⟨by decide, cfg_unrecognized_keys_ignored ["server", "port"]
    ["server=x", "bogus=1", "port = 2", "extra = y"] (by decide)⟩

/-- C9: loading a well-formed configuration with only recognized keys is
idempotent — a second `load_cfg_file` on the file descriptor returned by the
first (whose position is at end-of-file, so the result hinges on the
`seek(0)` the function performs) produces the same result. -/
theorem cfg_load_idempotent (keys : List String) (fd : CfgFile)
    (hw : ∀ l ∈ fd.content, storedOrSkip keys '=' l = true) :
    (load_cfg_file (some (load_cfg_file (some fd) keys '=').1) keys '=').2 =
      (load_cfg_file (some fd) keys '=').2 := by
  simp [load_cfg_file]

/-- Witness for C9 on a concrete two-entry file. -/
theorem cfg_load_idempotent_witness :
    (∀ l ∈ ["server = x", "# note", "port=1"],
      storedOrSkip ["server", "port"] '=' l = true) ∧
    (load_cfg_file (some (load_cfg_file (some ⟨["server = x", "# note", "port=1"], 0⟩)
        ["server", "port"] '=').1) ["server", "port"] '=').2 =
      (load_cfg_file (some ⟨["server = x", "# note", "port=1"], 0⟩)
        ["server", "port"] '=').2 :=
  ⟨by decide, cfg_load_idempotent ["server", "port"]
    ⟨["server = x", "# note", "port=1"], 0⟩ (by decide)⟩

/-! ## Lemmas about the link builder -/

/-- `pairsOf` drops an absent parameter. -/
theorem pairsOf_none (nm : String) (rest : List (String × Option String)) :
    pairsOf ((nm, none) :: rest) = pairsOf rest := by
  simp [pairsOf]

/-- `pairsOf` keeps a present parameter as `name=value`. -/
theorem pairsOf_some (nm v : String) (rest : List (String × Option String)) :
    pairsOf ((nm, some v) :: rest) = (nm ++ "=" ++ v) :: pairsOf rest := by
  simp [pairsOf]

/-- The query-parameter fold appends exactly the `&`-joined present pairs,
with `/?` before the first parameter. -/
theorem queryFold_closed (items : List (String × Option String)) :
    ∀ (acc : String) (q : Nat),
      queryFold items acc q = acc ++ querySuffix (pairsOf items) q := by
  induction items with
  | nil => intro acc q; simp [queryFold, pairsOf, querySuffix, String.append_empty]
  | cons p rest ih =>
    rcases p with ⟨nm, v⟩
    rcases v with _ | v <;> intro acc q
    · rw [pairsOf_none]
      simp only [queryFold]
      exact ih acc q
    · rw [pairsOf_some]
      simp only [queryFold]
      rw [ih]
      rcases hr : pairsOf rest with _ | ⟨s, ps⟩
      · simp only [querySuffix, joinAmp]
        apply String.ext
        simp [String.data_append, List.append_assoc]
      · simp only [querySuffix, joinAmp]
        apply String.ext
        simp [String.data_append, List.append_assoc]

/-- A configuration that passes `__test_params` produces the closed-form
link: scheme, authentication, host, port, query — with nothing contributed
by `dbname`. -/
theorem make_db_link_closed (cfg : MongoCfg) (srv : String)
    (hs : cfg.server = some srv) (hv : testParams cfg = .ok ()) :
    make_db_link cfg = .ok (linkOf cfg) := by
  simp only [make_db_link, hs, hv]
  rw [queryFold_closed]
  unfold linkOf authPart portPart queryPart queryPairs
  rw [hs]
  rcases hu : cfg.username with _ | u <;> rcases hp : cfg.password with _ | p <;>
    rcases hpt : cfg.port with _ | pt <;>
      simp only [hu, hp, hpt, Except.ok.injEq] <;>
        (apply String.ext; simp [String.data_append, List.append_assoc])

/-! ## Claims C4, C5, C6 (link builder) -/

/-- C4 (amended): for every configuration that passes validation, the link is
the fixed-order concatenation scheme, authentication component, host, port,
then the query-string suffix built from the remaining parameters in declared
order joined by `&` — the first query parameter prefixed by `/?` (not a bare
`?`), and the configured database name contributing nothing (its branch is
commented out in the source); and a configuration with only a host produces
exactly `mongodb://host` with no trailing separators. -/
theorem make_db_link_component_order :
    (∀ (cfg : MongoCfg) (srv : String), cfg.server = some srv →
      testParams cfg = .ok () → make_db_link cfg = .ok (linkOf cfg)) ∧
    (∀ host : String,
      make_db_link ⟨some host, none, none, none, none, none, none, none, none,
        none, none⟩ = .ok ("mongodb://" ++ host)) := by
  constructor
  · exact fun cfg srv hs hv => make_db_link_closed cfg srv hs hv
  · intro host
    rw [make_db_link_closed
      ⟨some host, none, none, none, none, none, none, none, none, none, none⟩
      host rfl rfl]
    simp only [linkOf, authPart, portPart, queryPart, queryPairs, pairsOf,
      querySuffix, List.filterMap, Option.map, Except.ok.injEq]
    apply String.ext
    simp [String.data_append, List.append_assoc]

/-- Counterexample to C4 as stated: with a database name configured the link
contains no path/database component at all — the `dbname` branch of the
`LINK_ORDER` loop is commented out.  Here `dbname` is `"zoo"`, yet the
output is exactly `mongodb://h` and `"zoo"` occurs nowhere in it. -/
theorem make_db_link_component_order_cex :
    make_db_link ⟨some "h", none, none, none, some "zoo", none, none, none,
        none, none, none⟩ = .ok "mongodb://h" ∧
    infixChars "zoo".data "mongodb://h".data = false := by
  constructor
  · rfl
  · decide

/-- Witness for C4 on a fully-populated configuration and a host-only one. -/
theorem make_db_link_component_order_witness :
    testParams ⟨some "h", some "u", some "pw", some "27017", some "db",
      some "adm", some "True", some "rs", some "100", some "app",
      some "false"⟩ = .ok () ∧
    make_db_link ⟨some "h", some "u", some "pw", some "27017", some "db",
      some "adm", some "True", some "rs", some "100", some "app",
      some "false"⟩ = .ok (linkOf ⟨some "h", some "u", some "pw", some "27017",
      some "db", some "adm", some "True", some "rs", some "100", some "app",
      some "false"⟩) ∧
    make_db_link ⟨some "myhost", none, none, none, none, none, none, none,
      none, none, none⟩ = .ok ("mongodb://" ++ "myhost") :=
  ⟨rfl,
   make_db_link_component_order.1 ⟨some "h", some "u", some "pw", some "27017",
     some "db", some "adm", some "True", some "rs", some "100", some "app",
     some "false"⟩ "h" rfl rfl,
   make_db_link_component_order.2 "myhost"⟩

/-- C5: username and password are percent-encoded with
`urllib.parse.quote_plus` before insertion — on `"fun@ny:user/name%"` this
yields exactly `fun%40ny%3Auser%2Fname%25` — and every other field (host,
port, query values) is inserted verbatim, unescaped, as the closed form
shows. -/
theorem make_db_link_credentials_escaped :
    quotePlus "fun@ny:user/name%" = "fun%40ny%3Auser%2Fname%25" ∧
    (∀ (cfg : MongoCfg) (srv u p : String),
      cfg.server = some srv → cfg.username = some u → cfg.password = some p →
      testParams cfg = .ok () →
      make_db_link cfg = .ok ("mongodb://" ++ quotePlus u ++ ":" ++
        quotePlus p ++ "@" ++ srv ++ portPart cfg ++ queryPart cfg)) := by
  constructor
  · rfl
  · intro cfg srv u p hs hu hp hv
    rw [make_db_link_closed cfg srv hs hv]
    simp only [linkOf, authPart, hs, hu, hp, Except.ok.injEq]
    apply String.ext
    simp [String.data_append, List.append_assoc]

/-- Witness for C5: the second conjunct applied to a concrete configuration
carrying the claim's username. -/
theorem make_db_link_credentials_escaped_witness :
    make_db_link ⟨some "h", some "fun@ny:user/name%", some "p w", some "1",
        none, none, none, none, none, none, none⟩ =
      .ok ("mongodb://" ++ quotePlus "fun@ny:user/name%" ++ ":" ++
        quotePlus "p w" ++ "@" ++ "h" ++
        portPart ⟨some "h", some "fun@ny:user/name%", some "p w", some "1",
          none, none, none, none, none, none, none⟩ ++
        queryPart ⟨some "h", some "fun@ny:user/name%", some "p w", some "1",
          none, none, none, none, none, none, none⟩) :=
  make_db_link_credentials_escaped.2
    ⟨some "h", some "fun@ny:user/name%", some "p w", some "1",
      none, none, none, none, none, none, none⟩
    "h" "fun@ny:user/name%" "p w" rfl rfl rfl rfl

/-- C6 (amended): when the required server field is configured, a password
with no username makes link building fail with the invalid-configuration
error, regardless of every other field. -/
theorem make_db_link_password_without_username (cfg : MongoCfg) (srv pw : String)
    (hs : cfg.server = some srv) (hu : cfg.username = none)
    (hp : cfg.password = some pw) :
    make_db_link cfg = .error .invalidConfiguration := by
  have ht : testParams cfg = .error .invalidConfiguration := by
    unfold testParams
    rw [hs, hu, hp]
    simp
  simp only [make_db_link, hs, ht]

/-- Counterexample to C6 as stated: with no server configured, a password
without a username fails with the server-not-configured error (raised first,
in `make_db_link` itself), not with the invalid-configuration error — so the
claim's "regardless of the values of all other fields" does not hold. -/
theorem make_db_link_password_without_username_cex :
    make_db_link ⟨none, none, some "pw", none, none, none, none, none, none,
        none, none⟩ = .error .serverNotConfigured ∧
    LinkErr.serverNotConfigured ≠ LinkErr.invalidConfiguration := by
  constructor
  · rfl
  · decide

/-- Witness for C6 (amended): concrete configuration with server set, a
password, no username, and adversarial other fields (non-integer port). -/
theorem make_db_link_password_without_username_witness :
    make_db_link ⟨some "h", none, some "pw", some "not-a-number", some "db",
        none, some "bogus", none, none, none, none⟩ =
      .error .invalidConfiguration :=
  make_db_link_password_without_username
    ⟨some "h", none, some "pw", some "not-a-number", some "db", none,
      some "bogus", none, none, none, none⟩ "h" "pw" rfl rfl rfl

/-! ## Lemmas about the chunked retry -/

/-- `range(i, n, b)` is empty when the start is past the stop. -/
theorem pyRange_empty (i n b : Nat) (hb : 0 < b) (hn : n ≤ i) :
    pyRange i n b = [] := by
  unfold pyRange
  have h0 : n - i = 0 := by omega
  rw [h0]
  have h1 : (0 + b - 1) / b = 0 := Nat.div_eq_of_lt (by omega)
  rw [h1, List.range']

/-- `range(i, n, b)` starts with `i` and continues from `i + b` while `i`
is below the stop. -/
theorem pyRange_step (i n b : Nat) (hb : 0 < b) (hin : i < n) :
    pyRange i n b = i :: pyRange (i + b) n b := by
  unfold pyRange
  have hm : (n - i + b - 1) / b = (n - (i + b) + b - 1) / b + 1 := by
    rcases le_or_lt (i + b) n with h | h
    · have e1 : n - i + b - 1 = (n - (i + b) + b - 1) + b := by omega
      rw [e1, Nat.add_div_right _ hb]
    · have e1 : n - i + b - 1 = (n - i - 1) + b := by omega
      have e2 : n - (i + b) = 0 := by omega
      rw [e1, Nat.add_div_right _ hb, e2]
      have e3 : (n - i - 1) / b = 0 := Nat.div_eq_of_lt (by omega)
      have e4 : (0 + b - 1) / b = 0 := Nat.div_eq_of_lt (by omega)
      rw [e3, e4]
  rw [hm]
  rfl

/-- The chunk slices taken at the indices of `range(i, n, b)` concatenate to
exactly the tail of the batch from index `i` on. -/
theorem chunks_cover (entries : List α) (b : Nat) (hb : 0 < b) :
    ∀ i, ((pyRange i entries.length b).map (fun idx => pySlice entries idx b)).flatten =
      entries.drop i := by
  have main : ∀ (fuel i : Nat), entries.length - i ≤ fuel →
      ((pyRange i entries.length b).map (fun idx => pySlice entries idx b)).flatten =
        entries.drop i := by
    intro fuel
    induction fuel with
    | zero =>
      intro i hle
      have hin : entries.length ≤ i := by omega
      rw [pyRange_empty i entries.length b hb hin]
      simp [List.drop_eq_nil_of_le hin]
    | succ f ih =>
      intro i hle
      by_cases hin : entries.length ≤ i
      · rw [pyRange_empty i entries.length b hb hin]
        simp [List.drop_eq_nil_of_le hin]
      · push_neg at hin
        rw [pyRange_step i entries.length b hb hin]
        simp only [List.map_cons, List.flatten_cons]
        rw [ih (i + b) (by omega)]
        have hd : entries.drop (i + b) = (entries.drop i).drop b := by
          rw [List.drop_drop, Nat.add_comm]
        rw [pySlice, hd, List.take_append_drop]
  exact fun i => main (entries.length - i) i le_rfl

/-- When every oracle response from call `k` on succeeds, the chunk loop
emits one submission and one 250 ms pause per index, and returns the
accumulated id lists with the last acknowledgement flag. -/
theorem chunkLoop_allOk (c : CollOracle α) (entries : List α) (b : Nat) :
    ∀ (idxs : List Nat) (k : Nat) (acc : List (List α)) (a0 : Bool),
      (∀ j, k ≤ j → ∃ ids ack, c.resp j = .ok ids ack) →
      ∃ (chunkIds : List (List α)) (lastAck : Bool),
        chunkLoop c entries b idxs k acc a0 =
          ((idxs.map (fun idx =>
            [MEvent.insertCall (pySlice entries idx b), MEvent.sleepMs 250])).flatten,
           .ok (acc ++ chunkIds, lastAck)) := by
  intro idxs
  induction idxs with
  | nil => intro k acc a0 _; exact ⟨[], a0, by simp [chunkLoop]⟩
  | cons idx rest ih =>
    intro k acc a0 hok
    obtain ⟨ids, ack, hr⟩ := hok k le_rfl
    obtain ⟨cIds, la, he⟩ := ih (k + 1) (acc ++ [ids]) ack (fun j hj => hok j (by omega))
    refine ⟨ids :: cIds, la, ?_⟩
    simp only [chunkLoop, hr, he]
    simp

/-- When the first `m` chunk responses succeed and response `m` is a
`BulkWriteError`, the loop stops right after submitting the failing chunk
and re-raises: no later chunk is submitted. -/
theorem chunkLoop_failAt (c : CollOracle α) (entries : List α) (b : Nat) (d : WriteErr) :
    ∀ (idxs : List Nat) (m k : Nat) (acc : List (List α)) (a0 : Bool)
      (hm : m < idxs.length),
      (∀ j, k ≤ j → j < k + m → ∃ ids ack, c.resp j = .ok ids ack) →
      c.resp (k + m) = .bulkErr d →
      chunkLoop c entries b idxs k acc a0 =
        (((idxs.take m).map (fun idx =>
            [MEvent.insertCall (pySlice entries idx b), MEvent.sleepMs 250])).flatten ++
          [MEvent.insertCall (pySlice entries (idxs.get ⟨m, hm⟩) b)],
         .error (.bulkWrite d)) := by
  intro idxs
  induction idxs with
  | nil => intro m k acc a0 hm; exact absurd hm (by simp)
  | cons idx rest ih =>
    intro m k acc a0 hm hok hfail
    rcases m with _ | m
    · have hk : c.resp k = .bulkErr d := by simpa using hfail
      simp [chunkLoop, hk]
    · obtain ⟨ids, ack, hr⟩ := hok k le_rfl (by omega)
      have hm' : m < rest.length := by simpa using hm
      have he := ih m (k + 1) (acc ++ [ids]) ack hm'
        (fun j hj1 hj2 => hok j (by omega) (by omega))
        (by rw [show k + 1 + m = k + (m + 1) by omega]; exact hfail)
      simp only [chunkLoop, hr, he]
      simp

/-! ## Claims C1, C2, C3, C10 (batched insert fallback) -/

/-- C1 (amended): when the bulk insert fails with the capacity-exceeded code
16500 AND the configured server contains `mongo.cosmos.azure` (an extra
condition the source imposes), and the failing index `i` is at least 4, the
call sleeps 500 ms and re-submits exactly the documents at indices
`i..n-1`, in chunks of `int(i * 0.25)` documents (no minimum is applied in
the source; for `i < 4` the chunk size is 0 and `range` raises instead),
sleeping 250 ms after each chunk. -/
theorem insertMany_capacity_chunked_retry {α : Type} (c : CollOracle α)
    (entries : List α) (server : String) (i : Nat)
    (h0 : c.resp 0 = .bulkErr ⟨i, 16500⟩)
    (haz : pyContains server "mongo.cosmos.azure" = true)
    (hi : 4 ≤ i)
    (hok : ∀ j, 1 ≤ j → ∃ ids ack, c.resp j = .ok ids ack) :
    (insertMany server (some c) entries).1 =
      [MEvent.insertCall entries, MEvent.sleepMs 500] ++
        ((pyRange i entries.length (i / 4)).map (fun idx =>
          [MEvent.insertCall (pySlice entries idx (i / 4)),
           MEvent.sleepMs 250])).flatten ∧
    ((pyRange i entries.length (i / 4)).map
      (fun idx => pySlice entries idx (i / 4))).flatten = entries.drop i ∧
    (∀ idx ∈ pyRange i entries.length (i / 4),
      (pySlice entries idx (i / 4)).length ≤ i / 4) := by
  have hb : 0 < i / 4 := (Nat.one_le_div_iff (by omega)).mpr hi
  obtain ⟨cIds, la, he⟩ := chunkLoop_allOk c entries (i / 4)
    (pyRange i entries.length (i / 4)) 1 [] false (fun j hj => hok j hj)
  refine ⟨?_, chunks_cover entries (i / 4) hb i, ?_⟩
  · simp only [insertMany, h0]
    rw [if_pos ⟨True.intro, haz⟩]
    simp only [if_neg (show ¬(i / 4 = 0) from by omega), he]
    split <;> rfl
  · intro idx _
    simp [pySlice, List.length_take]

/-- Counterexample to C1 as stated: a bulk insert of 8 documents fails with
the capacity-exceeded code 16500 at index 4, but the server does not contain
`mongo.cosmos.azure`, so the source re-raises instead of chunking: the only
submission is the initial one (the claim demands re-submission of indices
4..7 in 4 chunks of size 1). -/
theorem insertMany_capacity_chunked_retry_cex :
    insertMany "example.com"
        (some (⟨fun k => if k = 0 then .bulkErr ⟨4, 16500⟩ else .ok [] true,
          0, 8⟩ : CollOracle Nat)) [0, 1, 2, 3, 4, 5, 6, 7] =
      ([.insertCall [0, 1, 2, 3, 4, 5, 6, 7], .sleepMs 500],
       .error (.bulkWrite ⟨4, 16500⟩)) ∧
    (insertCalls (insertMany "example.com"
        (some (⟨fun k => if k = 0 then .bulkErr ⟨4, 16500⟩ else .ok [] true,
          0, 8⟩ : CollOracle Nat)) [0, 1, 2, 3, 4, 5, 6, 7]).1).length = 1 := by
  constructor
  · rfl
  · rfl

/-- Witness for C1 (amended) on a concrete azure-named server: failing index
4 of 8 documents, chunk size 1. -/
theorem insertMany_capacity_chunked_retry_witness :
    ((⟨fun k => if k = 0 then .bulkErr ⟨4, 16500⟩ else .ok [] true,
        0, 8⟩ : CollOracle Nat).resp 0 = .bulkErr ⟨4, 16500⟩) ∧
    pyContains "db.mongo.cosmos.azure.com" "mongo.cosmos.azure" = true ∧
    (insertMany "db.mongo.cosmos.azure.com"
        (some (⟨fun k => if k = 0 then .bulkErr ⟨4, 16500⟩ else .ok [] true,
          0, 8⟩ : CollOracle Nat)) [0, 1, 2, 3, 4, 5, 6, 7]).1 =
      [MEvent.insertCall [0, 1, 2, 3, 4, 5, 6, 7], MEvent.sleepMs 500] ++
        ((pyRange 4 ([0, 1, 2, 3, 4, 5, 6, 7] : List Nat).length (4 / 4)).map
          (fun idx => [MEvent.insertCall
              (pySlice ([0, 1, 2, 3, 4, 5, 6, 7] : List Nat) idx (4 / 4)),
            MEvent.sleepMs 250])).flatten :=
  ⟨rfl, by decide,
   (insertMany_capacity_chunked_retry
     (⟨fun k => if k = 0 then .bulkErr ⟨4, 16500⟩ else .ok [] true,
       0, 8⟩ : CollOracle Nat)
     [0, 1, 2, 3, 4, 5, 6, 7] "db.mongo.cosmos.azure.com" 4 rfl (by decide)
     (by omega)
     (fun j hj => ⟨[], true, by simp [show ¬(j = 0) from by omega]⟩)).1⟩

/-- C2: after the chunk loop completes, the count of newly inserted
documents (the `count_documents` delta) is checked against the batch size:
a differing count fails with the count-mismatch error carrying both numbers,
and a matching count returns a successful result, the verified count being
exactly the batch size. -/
theorem insertMany_count_verification {α : Type} (c : CollOracle α)
    (entries : List α) (server : String) (i : Nat)
    (h0 : c.resp 0 = .bulkErr ⟨i, 16500⟩)
    (haz : pyContains server "mongo.cosmos.azure" = true)
    (hi : 4 ≤ i)
    (hok : ∀ j, 1 ≤ j → ∃ ids ack, c.resp j = .ok ids ack) :
    ((c.countAfter : Int) - c.countBefore ≠ entries.length →
      (insertMany server (some c) entries).2 =
        .error (.countMismatch ((c.countAfter : Int) - c.countBefore)
          entries.length)) ∧
    ((c.countAfter : Int) - c.countBefore = entries.length →
      ∃ r, (insertMany server (some c) entries).2 = .ok r ∧
        (c.countAfter : Int) - c.countBefore = entries.length) := by
  obtain ⟨cIds, la, he⟩ := chunkLoop_allOk c entries (i / 4)
    (pyRange i entries.length (i / 4)) 1 [] false (fun j hj => hok j hj)
  constructor
  · intro hne
    simp only [insertMany, h0]
    rw [if_pos ⟨True.intro, haz⟩]
    simp only [if_neg (show ¬(i / 4 = 0) from by omega), he]
    rw [if_pos hne]
  · intro heq
    refine ⟨⟨List.replicate i .pyNone ++ cIds.map .idList, la⟩, ?_, heq⟩
    simp only [insertMany, h0]
    rw [if_pos ⟨True.intro, haz⟩]
    simp only [if_neg (show ¬(i / 4 = 0) from by omega), he]
    rw [if_neg (by simp [heq])]
    simp

/-- Witness for C2: the same azure run with a correct final count (8 of 8)
returns ok, and with an inflated final count (9 of 8) fails with the
count-mismatch error. -/
theorem insertMany_count_verification_witness :
    (insertMany "db.mongo.cosmos.azure.com"
        (some (⟨fun k => if k = 0 then .bulkErr ⟨4, 16500⟩ else .ok [] true,
          0, 9⟩ : CollOracle Nat)) [0, 1, 2, 3, 4, 5, 6, 7]).2 =
      .error (.countMismatch ((9 : Int) - 0) 8) ∧
    (∃ r, (insertMany "db.mongo.cosmos.azure.com"
        (some (⟨fun k => if k = 0 then .bulkErr ⟨4, 16500⟩ else .ok [] true,
          0, 8⟩ : CollOracle Nat)) [0, 1, 2, 3, 4, 5, 6, 7]).2 = .ok r ∧
      ((8 : Nat) : Int) - (0 : Nat) = ([0, 1, 2, 3, 4, 5, 6, 7] : List Nat).length) :=
  ⟨(insertMany_count_verification
      (⟨fun k => if k = 0 then .bulkErr ⟨4, 16500⟩ else .ok [] true,
        0, 9⟩ : CollOracle Nat)
      [0, 1, 2, 3, 4, 5, 6, 7] "db.mongo.cosmos.azure.com" 4 rfl (by decide)
      (by omega)
      (fun j hj => ⟨[], true, by simp [show ¬(j = 0) from by omega]⟩)).1
      (by decide),
   (insertMany_count_verification
      (⟨fun k => if k = 0 then .bulkErr ⟨4, 16500⟩ else .ok [] true,
        0, 8⟩ : CollOracle Nat)
      [0, 1, 2, 3, 4, 5, 6, 7] "db.mongo.cosmos.azure.com" 4 rfl (by decide)
      (by omega)
      (fun j hj => ⟨[], true, by simp [show ¬(j = 0) from by omega]⟩)).2
      (by decide)⟩

/-- C3: a bulk failure whose code differs from 16500 is re-raised with no
chunk submitted; any non-`BulkWriteError` failure propagates untouched; and
a second capacity failure during the chunked retry is re-raised right after
the failing chunk, with no later submission and no further recursion. -/
theorem insertMany_error_propagation (α : Type) :
    (∀ (c : CollOracle α) (entries : List α) (server : String) (d : WriteErr),
      c.resp 0 = .bulkErr d → d.code ≠ 16500 →
      insertMany server (some c) entries =
        ([.insertCall entries, .sleepMs 500], .error (.bulkWrite d))) ∧
    (∀ (c : CollOracle α) (entries : List α) (server : String),
      c.resp 0 = .otherFail →
      insertMany server (some c) entries =
        ([.insertCall entries], .error .otherError)) ∧
    (∀ (c : CollOracle α) (entries : List α) (server : String) (i : Nat)
      (d' : WriteErr) (m : Nat)
      (hm : m < (pyRange i entries.length (i / 4)).length),
      c.resp 0 = .bulkErr ⟨i, 16500⟩ →
      pyContains server "mongo.cosmos.azure" = true →
      4 ≤ i →
      (∀ j, 1 ≤ j → j < 1 + m → ∃ ids ack, c.resp j = .ok ids ack) →
      c.resp (1 + m) = .bulkErr d' →
      insertMany server (some c) entries =
        ([MEvent.insertCall entries, MEvent.sleepMs 500] ++
          ((((pyRange i entries.length (i / 4)).take m).map (fun idx =>
              [MEvent.insertCall (pySlice entries idx (i / 4)),
               MEvent.sleepMs 250])).flatten ++
            [MEvent.insertCall (pySlice entries
              ((pyRange i entries.length (i / 4)).get ⟨m, hm⟩) (i / 4))]),
         .error (.bulkWrite d'))) := by
  refine ⟨?_, ?_, ?_⟩
  · intro c entries server d h0 hcode
    simp only [insertMany, h0]
    rw [if_neg (by intro hand; exact hcode hand.1)]
  · intro c entries server h0
    simp only [insertMany, h0]
  · intro c entries server i d' m hm h0 haz hi hok hfail
    have he := chunkLoop_failAt c entries (i / 4) d'
      (pyRange i entries.length (i / 4)) m 1 [] false hm hok hfail
    simp only [insertMany, h0]
    rw [if_pos ⟨True.intro, haz⟩]
    simp only [if_neg (show ¬(i / 4 = 0) from by omega), he]

/-- Witness for C3: (a) code 11000 at the initial insert propagates with a
single submission; (b) a non-bulk-write failure propagates; (c) an azure run
whose second chunk (call index 2) fails with 16500 again stops right there. -/
theorem insertMany_error_propagation_witness :
    insertMany "db.mongo.cosmos.azure.com"
        (some (⟨fun _ => .bulkErr ⟨4, 11000⟩, 0, 8⟩ : CollOracle Nat))
        [0, 1, 2, 3, 4, 5, 6, 7] =
      ([.insertCall [0, 1, 2, 3, 4, 5, 6, 7], .sleepMs 500],
       .error (.bulkWrite ⟨4, 11000⟩)) ∧
    insertMany "db.mongo.cosmos.azure.com"
        (some (⟨fun _ => .otherFail, 0, 8⟩ : CollOracle Nat))
        [0, 1, 2, 3, 4, 5, 6, 7] =
      ([.insertCall [0, 1, 2, 3, 4, 5, 6, 7]], .error .otherError) ∧
    (insertMany "db.mongo.cosmos.azure.com"
        (some (⟨fun k => if k = 0 then .bulkErr ⟨4, 16500⟩
          else if k = 2 then .bulkErr ⟨0, 16500⟩ else .ok [] true,
          0, 8⟩ : CollOracle Nat)) [0, 1, 2, 3, 4, 5, 6, 7]).2 =
      .error (.bulkWrite ⟨0, 16500⟩) := by
  refine ⟨?_, ?_, ?_⟩
  · exact (insertMany_error_propagation Nat).1
      (⟨fun _ => .bulkErr ⟨4, 11000⟩, 0, 8⟩ : CollOracle Nat)
      [0, 1, 2, 3, 4, 5, 6, 7] "db.mongo.cosmos.azure.com" ⟨4, 11000⟩ rfl
      (by decide)
  · exact (insertMany_error_propagation Nat).2.1
      (⟨fun _ => .otherFail, 0, 8⟩ : CollOracle Nat)
      [0, 1, 2, 3, 4, 5, 6, 7] "db.mongo.cosmos.azure.com" rfl
  · rw [(insertMany_error_propagation Nat).2.2
      (⟨fun k => if k = 0 then .bulkErr ⟨4, 16500⟩
        else if k = 2 then .bulkErr ⟨0, 16500⟩ else .ok [] true,
        0, 8⟩ : CollOracle Nat)
      [0, 1, 2, 3, 4, 5, 6, 7] "db.mongo.cosmos.azure.com" 4 ⟨0, 16500⟩ 1
      (by decide) rfl (by decide) (by omega)
      (fun j hj1 hj2 => ⟨[], true, by
        simp [show ¬(j = 0) from by omega, show ¬(j = 2) from by omega]⟩)
      rfl]

/-- C10: when `get_collection()` yields nothing (no connection, or no
`dbname`, or no `collection` configured), `insert_many` performs no insert
and returns the untouched initial result: empty inserted-ids and
acknowledged `False`. -/
theorem insertMany_no_collection (α : Type) (server : String)
    (conn : Option (CollOracle α)) (dbname collName : Option String)
    (entries : List α)
    (h : conn = none ∨ dbname = none ∨ collName = none) :
    insertManyOp server conn dbname collName entries = ([], .ok ⟨[], false⟩) := by
  rcases conn with _ | c <;> rcases dbname with _ | dn <;> rcases collName with _ | cn <;>
    simp_all [insertManyOp, getCollection, insertMany]

/-- Witness for C10 at concrete inputs: connection present but no collection
name configured. -/
theorem insertMany_no_collection_witness :
    insertManyOp "h" (some (⟨fun _ => .otherFail, 0, 0⟩ : CollOracle Nat))
      (some "db") none [1, 2, 3] = ([], .ok ⟨[], false⟩) :=
  insertMany_no_collection Nat "h"
    (some (⟨fun _ => .otherFail, 0, 0⟩ : CollOracle Nat)) (some "db") none
    [1, 2, 3] (Or.inr (Or.inr rfl))

end DbToolkit
